import Mathlib

set_option linter.unusedVariables false

/-!
Formal model of the W3B reserve-backed token protocol
(`w3b-token/programs/w3b_protocol/programs/w3b_protocol/src/lib.rs`).

The Rust source is an Anchor program. We embed its instruction handlers as
pure Lean functions over an explicit state type. Machine integers (`u64`,
`u8`) become `Nat` with explicit bounds where overflow matters; `i64`
timestamps become `Int`; `Pubkey` values become opaque `Nat` identifiers;
fallible handlers return `Except W3BError _`, where an error corresponds to
the transaction aborting with no state mutation observed.
-/

/-- Maximum value of a `u64`. -/
def U64_MAX : Nat := 2 ^ 64 - 1

/-- Rust `u64::checked_add`: `some` of the sum when it fits in 64 bits. -/
def checked_add (a b : Nat) : Option Nat :=
  if a + b ≤ U64_MAX then some (a + b) else none

/-- Rust `u64::checked_sub`: `some` of the difference when no underflow. -/
def checked_sub (a b : Nat) : Option Nat :=
  if b ≤ a then some (a - b) else none

/-- Rust `u64::checked_mul`: `some` of the product when it fits in 64 bits. -/
def checked_mul (a b : Nat) : Option Nat :=
  if a * b ≤ U64_MAX then some (a * b) else none

/-- Rust `u64::saturating_add`: the sum, capped at `u64::MAX`. -/
def saturating_add (a b : Nat) : Nat := min (a + b) U64_MAX

/-- Error codes of the program (`W3BError` enum in the source). -/
inductive W3BError where
  | ProtocolPaused
  | StaleMerkleRoot
  | MathOverflow
  | InsufficientReserves
  | InvalidPrice
  | PriceChangeExceedsLimit
  | Unauthorized
  | ReserveCountMismatch
  | PriceNotSet
  | InvalidRedemptionStatus
  | ExceedsTransactionCap
deriving Repr, DecidableEq

/-- The `ProtocolState` singleton account (V2 layout), field for field from
the source struct.  Pubkeys are opaque `Nat` identifiers, the 32-byte merkle
root is an opaque `Nat` commitment, `i64` timestamps are `Int`. -/
structure ProtocolState where
  authority : Nat
  operator : Nat
  w3b_mint : Nat
  treasury : Nat
  total_supply : Nat
  total_burned : Nat
  current_merkle_root : Nat
  proven_reserves : Nat
  last_root_update : Int
  last_proof_timestamp : Int
  w3b_price_lamports : Nat
  sol_receiver : Nat
  yield_apy_bps : Nat
  total_yield_distributed : Nat
  last_yield_distribution : Int
  is_paused : Bool
  bump : Nat
deriving Repr, DecidableEq

/-- The `UserProfile` account, field for field from the source struct. -/
structure UserProfile where
  user : Nat
  total_volume : Nat
  points : Nat
  tier : Nat
  total_redeemed : Nat
  total_fulfilled : Nat
  fulfiller_rewards : Nat
  bump : Nat
deriving Repr, DecidableEq

/-- The `RedemptionRequest` account, field for field from the source struct.
`status` is the raw `u8`: 0 = Pending, 1 = Claimed, 3 = Confirmed,
4 = Cancelled. -/
structure RedemptionRequest where
  user : Nat
  request_id : Nat
  amount : Nat
  status : Nat
  fulfiller : Nat
  created_at : Int
  claimed_at : Int
  confirmed_at : Int
  bump : Nat
deriving Repr, DecidableEq

/-- Handler `mint_w3b` (operator op).  The source checks, in order:
pause flag, proof staleness (`now - last_proof_timestamp < 48 * 3600`),
overflow-checked new supply, and `new_supply <= proven_reserves`; only then
performs the CPI mint and commits `total_supply = new_supply`.  The CPI and
the counter update form one atomic transaction, so the `Except` error cases
model the transaction aborting with no state change. -/
def mint_w3b (s : ProtocolState) (now : Int) (amount : Nat) :
    Except W3BError ProtocolState :=
  if s.is_paused then .error .ProtocolPaused
  else if 48 * 3600 ≤ now - s.last_proof_timestamp then .error .StaleMerkleRoot
  else
    match checked_add s.total_supply amount with
    | none => .error .MathOverflow
    | some new_supply =>
      if new_supply ≤ s.proven_reserves then
        .ok { s with total_supply := new_supply }
      else .error .InsufficientReserves

/-- One call in a sequence of `mint_w3b` transactions: on success the new
state is committed, on failure the transaction aborts and the state is
unchanged. -/
def mintStep (s : ProtocolState) (c : Int × Nat) : ProtocolState :=
  match mint_w3b s c.1 c.2 with
  | .ok s2 => s2
  | .error _ => s

/-- Handler `submit_proof` (operator op): requires the claimed reserve count
to equal the stored `proven_reserves`, then stamps `last_proof_timestamp`.
The `proof_hash` argument is only echoed into the emitted event. -/
def submit_proof (s : ProtocolState) (now : Int) (proof_hash : List Nat)
    (claimed_reserves : Nat) : Except W3BError ProtocolState :=
  if claimed_reserves = s.proven_reserves then
    .ok { s with last_proof_timestamp := now }
  else .error .ReserveCountMismatch

/-- Handler `set_w3b_price` (operator op): requires a positive price and,
once a nonzero price exists, bounds the move to at most `current / 5`. -/
def set_w3b_price (s : ProtocolState) (price_lamports : Nat) :
    Except W3BError ProtocolState :=
  if price_lamports > 0 then
    let current := s.w3b_price_lamports
    if current > 0 then
      let max_change := current / 5
      let diff := if price_lamports > current then price_lamports - current
                  else current - price_lamports
      if diff ≤ max_change then
        .ok { s with w3b_price_lamports := price_lamports }
      else .error .PriceChangeExceedsLimit
    else .ok { s with w3b_price_lamports := price_lamports }
  else .error .InvalidPrice

/-- Handler `set_w3b_price_admin` (admin op): unbounded override. -/
def set_w3b_price_admin (s : ProtocolState) (price : Nat) : ProtocolState :=
  { s with w3b_price_lamports := price }

/-- A concrete unpaused state with `proven_reserves = 100`, `total_supply = 0`
and a fresh proof, used to evaluate the spec scenarios. -/
def mintDemo : ProtocolState where
  authority := 1
  operator := 1
  w3b_mint := 2
  treasury := 3
  total_supply := 0
  total_burned := 0
  current_merkle_root := 0
  proven_reserves := 100
  last_root_update := 0
  last_proof_timestamp := 0
  w3b_price_lamports := 100
  sol_receiver := 1
  yield_apy_bps := 0
  total_yield_distributed := 0
  last_yield_distribution := 0
  is_paused := false
  bump := 255

theorem mint_w3b_ok_shape (s : ProtocolState) (now : Int) (amount : Nat)
    (s2 : ProtocolState) (h : mint_w3b s now amount = .ok s2) :
    s.total_supply + amount ≤ U64_MAX ∧
    s.total_supply + amount ≤ s.proven_reserves ∧
    s2 = { s with total_supply := s.total_supply + amount } := by
  unfold mint_w3b checked_add at h
  split at h
  · cases h
  · split at h
    · cases h
    · split at h
      · cases h
      · next new_supply heq =>
        split at heq
        · next hle =>
          rw [Option.some.injEq] at heq
          subst heq
          split at h
          · next hle2 =>
            rw [Except.ok.injEq] at h
            exact ⟨hle, hle2, h.symm⟩
          · cases h
        · cases heq

/-- One `mint_w3b` transaction preserves `total_supply <= proven_reserves`. -/
theorem mintStep_preserves (s : ProtocolState) (c : Int × Nat)
    (h : s.total_supply ≤ s.proven_reserves) :
    (mintStep s c).total_supply ≤ (mintStep s c).proven_reserves := by
  unfold mintStep
  rcases hm : mint_w3b s c.1 c.2 with e | s2
  · exact h
  · obtain ⟨-, h2, h3⟩ := mint_w3b_ok_shape s c.1 c.2 s2 hm
    subst h3
    simpa using h2

/-- Folding any sequence of mint calls preserves the supply invariant. -/
theorem foldl_mintStep_inv (calls : List (Int × Nat)) (s : ProtocolState)
    (h : s.total_supply ≤ s.proven_reserves) :
    (calls.foldl mintStep s).total_supply ≤
      (calls.foldl mintStep s).proven_reserves := by
  induction calls generalizing s with
  | nil => simpa using h
  | cons c cs ih => exact ih _ (mintStep_preserves s c h)

/-- C1: from any state with `totalSupply <= provenReserves`, no sequence of
`mint_w3b` calls (each succeeding or aborting) ever makes `total_supply`
exceed `proven_reserves`; a mint succeeds only when the overflow-checked
`totalSupply + amount` is at most `proven_reserves`; and the concrete
scenario reserves=100, supply=0: mint 60 succeeds (supply 60), mint 50 then
fails, mint 40 then succeeds (supply 100). -/
theorem mint_supply_never_exceeds_reserves :
    (∀ (s : ProtocolState), s.total_supply ≤ s.proven_reserves →
        ∀ (calls : List (Int × Nat)),
          (calls.foldl mintStep s).total_supply ≤
            (calls.foldl mintStep s).proven_reserves)
    ∧ (∀ (s : ProtocolState) (now : Int) (amount : Nat) (s2 : ProtocolState),
        mint_w3b s now amount = .ok s2 →
          s.total_supply + amount ≤ U64_MAX ∧
          s.total_supply + amount ≤ s.proven_reserves)
    ∧ (mint_w3b mintDemo 0 60 = .ok { mintDemo with total_supply := 60 }
       ∧ mint_w3b { mintDemo with total_supply := 60 } 0 50 =
           .error .InsufficientReserves
       ∧ mint_w3b { mintDemo with total_supply := 60 } 0 40 =
           .ok { mintDemo with total_supply := 100 }) := by
  refine ⟨fun s h calls => foldl_mintStep_inv calls s h,
          fun s now amount s2 h =>
            ⟨(mint_w3b_ok_shape s now amount s2 h).1,
             (mint_w3b_ok_shape s now amount s2 h).2.1⟩,
          ?_, ?_, ?_⟩ <;> rfl

/-- Witness for C1 at concrete inputs: the scenario sequence keeps the
supply within reserves, and the first mint call satisfies the success
characterization. -/
theorem mint_supply_never_exceeds_reserves_witness :
    (([((0 : Int), 60), ((0 : Int), 50), ((0 : Int), 40)].foldl mintStep
        mintDemo).total_supply ≤
      ([((0 : Int), 60), ((0 : Int), 50), ((0 : Int), 40)].foldl mintStep
        mintDemo).proven_reserves)
    ∧ (mintDemo.total_supply + 60 ≤ U64_MAX ∧
       mintDemo.total_supply + 60 ≤ mintDemo.proven_reserves) :=
  ⟨mint_supply_never_exceeds_reserves.1 mintDemo (by decide)
      [((0 : Int), 60), ((0 : Int), 50), ((0 : Int), 40)],
   mint_supply_never_exceeds_reserves.2.1 mintDemo 0 60
      { mintDemo with total_supply := 60 } (by rfl)⟩

/-- C8: in an unpaused state, whenever `now - lastProofTimestamp >= 48h` the
mint aborts with the staleness error (so no supply update is observed), and
a mint can succeed only when the proof is strictly younger than 48 hours. -/
theorem mint_stale_proof_fails (s : ProtocolState) (now : Int) (amount : Nat)
    (hp : s.is_paused = false) :
    (48 * 3600 ≤ now - s.last_proof_timestamp →
        mint_w3b s now amount = .error .StaleMerkleRoot)
    ∧ (∀ s2, mint_w3b s now amount = .ok s2 →
        now - s.last_proof_timestamp < 48 * 3600) := by
  constructor
  · intro hstale
    unfold mint_w3b
    rw [if_neg (by simp [hp]), if_pos hstale]
  · intro s2 h
    by_contra hge
    push_neg at hge
    unfold mint_w3b at h
    rw [if_neg (by simp [hp]), if_pos hge] at h
    cases h

/-- Witness for C8: a 48-hour-old proof makes the concrete demo mint fail
with the staleness error, while a fresh one lets it succeed. -/
theorem mint_stale_proof_fails_witness :
    mint_w3b mintDemo 172800 10 = .error .StaleMerkleRoot ∧
    (0 : Int) - mintDemo.last_proof_timestamp < 48 * 3600 :=
  ⟨(mint_stale_proof_fails mintDemo 172800 10 rfl).1 (by decide),
   (mint_stale_proof_fails mintDemo 0 10 rfl).2
      { mintDemo with total_supply := 10 } (by rfl)⟩

/-- C9: `submit_proof` succeeds exactly when the claimed reserve count
matches the stored `proven_reserves`; on success the resulting state is the
input state with only `last_proof_timestamp` replaced by `now`; on mismatch
it aborts with `ReserveCountMismatch` (no field mutated). -/
theorem submit_proof_only_stamps_timestamp (s : ProtocolState) (now : Int)
    (proof_hash : List Nat) (claimed : Nat) :
    (claimed = s.proven_reserves →
        submit_proof s now proof_hash claimed =
          .ok { s with last_proof_timestamp := now })
    ∧ (claimed ≠ s.proven_reserves →
        submit_proof s now proof_hash claimed = .error .ReserveCountMismatch)
    ∧ ((submit_proof s now proof_hash claimed).isOk = true ↔
        claimed = s.proven_reserves) := by
  refine ⟨fun h => by simp [submit_proof, h],
          fun h => by simp [submit_proof, h], ?_⟩
  unfold submit_proof
  split <;> simp_all [Except.isOk, Except.toBool]

/-- Witness for C9 at concrete inputs: matching claim succeeds stamping the
timestamp, mismatching claim fails. -/
theorem submit_proof_only_stamps_timestamp_witness :
    submit_proof mintDemo 5 [1, 2] 100 =
      .ok { mintDemo with last_proof_timestamp := 5 } ∧
    submit_proof mintDemo 5 [1, 2] 99 = .error .ReserveCountMismatch :=
  ⟨(submit_proof_only_stamps_timestamp mintDemo 5 [1, 2] 100).1 rfl,
   (submit_proof_only_stamps_timestamp mintDemo 5 [1, 2] 99).2.1 (by decide)⟩

/-- Helper: any successful `set_w3b_price` writes exactly the new price. -/
theorem set_w3b_price_ok_shape (s : ProtocolState) (p : Nat)
    (s2 : ProtocolState) (h : set_w3b_price s p = .ok s2) :
    s2 = { s with w3b_price_lamports := p } := by
  simp only [set_w3b_price] at h
  split at h
  · split at h
    · split at h <;> split at h <;>
        first
          | (rw [Except.ok.injEq] at h; exact h.symm)
          | cases h
    · rw [Except.ok.injEq] at h
      exact h.symm
  · cases h

/-- C7: the operator price path succeeds exactly when the new price is
positive and, whenever the current price is nonzero, the absolute change is
at most `current / 5`; success writes exactly the new price; the admin path
applies any price unboundedly; and the concrete scenario price=100:
set 119 succeeds, set 200 then fails, admin-set 200 then succeeds. -/
theorem set_price_bounded_operator_unbounded_admin (s : ProtocolState)
    (p : Nat) :
    ((set_w3b_price s p).isOk = true ↔
        (0 < p ∧ (0 < s.w3b_price_lamports →
          (if p > s.w3b_price_lamports then p - s.w3b_price_lamports
           else s.w3b_price_lamports - p) ≤ s.w3b_price_lamports / 5)))
    ∧ (∀ s2, set_w3b_price s p = .ok s2 →
        s2 = { s with w3b_price_lamports := p })
    ∧ (set_w3b_price_admin s p = { s with w3b_price_lamports := p })
    ∧ (set_w3b_price mintDemo 119 =
         .ok { mintDemo with w3b_price_lamports := 119 }
       ∧ set_w3b_price { mintDemo with w3b_price_lamports := 119 } 200 =
           .error .PriceChangeExceedsLimit
       ∧ set_w3b_price_admin { mintDemo with w3b_price_lamports := 119 } 200 =
           { mintDemo with w3b_price_lamports := 200 }) := by
  refine ⟨?_, set_w3b_price_ok_shape s p, rfl, by rfl, by rfl, by rfl⟩
  simp only [set_w3b_price]
  split_ifs <;> simp_all [Except.isOk, Except.toBool]

/-- Witness for C7 at concrete inputs: the successful operator update from
price 100 to 119 writes exactly 119. -/
theorem set_price_bounded_operator_unbounded_admin_witness :
    ({ mintDemo with w3b_price_lamports := 119 } : ProtocolState) =
      { mintDemo with w3b_price_lamports := 119 } :=
  (set_price_bounded_operator_unbounded_admin mintDemo 119).2.1
    { mintDemo with w3b_price_lamports := 119 } (by rfl)

/-- Handler `claim_redemption` (public, race-to-accept): only pending orders
can be claimed; sets status 1 and records the fulfiller and claim time. -/
def claim_redemption (req : RedemptionRequest) (fulfiller : Nat) (now : Int) :
    Except W3BError RedemptionRequest :=
  if req.status = 0 then
    .ok { req with status := 1, fulfiller := fulfiller, claimed_at := now }
  else .error .InvalidRedemptionStatus

/-- Handler `confirm_delivery` (admin/operator): only claimed orders can be
confirmed; sets status 3, stamps `confirmed_at`, and rewards the fulfiller
profile (5 points, one fulfillment) when it exists. -/
def confirm_delivery (req : RedemptionRequest)
    (fulfiller_profile : Option UserProfile) (now : Int) :
    Except W3BError (RedemptionRequest × Option UserProfile) :=
  if req.status = 1 then
    let req2 := { req with status := 3, confirmed_at := now }
    let fp2 := fulfiller_profile.map (fun fp =>
      { fp with points := saturating_add fp.points 5,
                total_fulfilled := saturating_add fp.total_fulfilled 1 })
    .ok (req2, fp2)
  else .error .InvalidRedemptionStatus

/-- Handler `cancel_redemption` (admin only): only pending or claimed orders
can be cancelled; sets status 4. -/
def cancel_redemption (req : RedemptionRequest) :
    Except W3BError RedemptionRequest :=
  if req.status = 0 ∨ req.status = 1 then .ok { req with status := 4 }
  else .error .InvalidRedemptionStatus

/-- One operation of the redemption state machine, with its caller-supplied
arguments. -/
inductive RedOp where
  | claim (fulfiller : Nat) (now : Int)
  | confirm (now : Int)
  | cancel

/-- Apply one redemption operation to a request (the request account is the
only state the three handlers mutate; the optional fulfiller profile of
`confirm_delivery` does not feed back into the request). -/
def applyRedOp (op : RedOp) (req : RedemptionRequest) :
    Except W3BError RedemptionRequest :=
  match op with
  | .claim f now => claim_redemption req f now
  | .confirm now =>
    match confirm_delivery req none now with
    | .ok x => .ok x.1
    | .error e => .error e
  | .cancel => cancel_redemption req

/-- One transaction against a request: committed on success, state unchanged
on abort. -/
def redStep (req : RedemptionRequest) (op : RedOp) : RedemptionRequest :=
  match applyRedOp op req with
  | .ok r2 => r2
  | .error _ => req

/-- C2: a redemption request only ever moves along
Pending(0) -> Claimed(1) -> Confirmed(3), Pending(0) -> Cancelled(4), or
Claimed(1) -> Cancelled(4): every transaction either leaves the request
unchanged (abort) or takes one of those edges; claim succeeds exactly from
Pending, confirm exactly from Claimed, cancel exactly from Pending or
Claimed; in particular no request re-enters Pending and no request leaves
Confirmed or Cancelled. -/
theorem redemption_status_forward_only :
    (∀ (r : RedemptionRequest) (op : RedOp),
        redStep r op = r ∨
        ((r.status = 0 ∧ (redStep r op).status = 1) ∨
         (r.status = 1 ∧ (redStep r op).status = 3) ∨
         (r.status = 0 ∧ (redStep r op).status = 4) ∨
         (r.status = 1 ∧ (redStep r op).status = 4)))
    ∧ (∀ r f now r2, claim_redemption r f now = .ok r2 →
        r.status = 0 ∧ r2.status = 1)
    ∧ (∀ r f now, (claim_redemption r f now).isOk = true ↔ r.status = 0)
    ∧ (∀ r fp now x, confirm_delivery r fp now = .ok x →
        r.status = 1 ∧ x.1.status = 3)
    ∧ (∀ r fp now, (confirm_delivery r fp now).isOk = true ↔ r.status = 1)
    ∧ (∀ r r2, cancel_redemption r = .ok r2 →
        (r.status = 0 ∨ r.status = 1) ∧ r2.status = 4)
    ∧ (∀ r, (cancel_redemption r).isOk = true ↔
        (r.status = 0 ∨ r.status = 1)) := by
  refine ⟨?_, ?_, ?_, ?_, ?_, ?_, ?_⟩
  · intro r op
    cases op with
    | claim f now =>
      simp only [redStep, applyRedOp, claim_redemption]
      split_ifs with h
      · right; left; exact ⟨h, rfl⟩
      · left; rfl
    | confirm now =>
      simp only [redStep, applyRedOp, confirm_delivery]
      split_ifs with h
      · right; right; left; exact ⟨h, rfl⟩
      · left; rfl
    | cancel =>
      simp only [redStep, applyRedOp, cancel_redemption]
      split_ifs with h
      · rcases h with h | h
        · right; right; right; left; exact ⟨h, rfl⟩
        · right; right; right; right; exact ⟨h, rfl⟩
      · left; rfl
  · intro r f now r2 h
    simp only [claim_redemption] at h
    split_ifs at h with hs
    rw [Except.ok.injEq] at h
    exact ⟨hs, by rw [← h]⟩
  · intro r f now
    simp only [claim_redemption]
    split_ifs with hs <;> simp_all [Except.isOk, Except.toBool]
  · intro r fp now x h
    simp only [confirm_delivery] at h
    split_ifs at h with hs
    rw [Except.ok.injEq] at h
    exact ⟨hs, by rw [← h]⟩
  · intro r fp now
    simp only [confirm_delivery]
    split_ifs with hs <;> simp_all [Except.isOk, Except.toBool]
  · intro r r2 h
    simp only [cancel_redemption] at h
    split_ifs at h with hs
    rw [Except.ok.injEq] at h
    exact ⟨hs, by rw [← h]⟩
  · intro r
    simp only [cancel_redemption]
    split_ifs with hs <;> simp_all [Except.isOk, Except.toBool]

/-- Witness for C2 at a concrete pending request: claiming it succeeds and
yields status 1, and claiming is possible exactly because it is pending. -/
theorem redemption_status_forward_only_witness :
    (({ user := 10, request_id := 1, amount := 40, status := 0, fulfiller := 0,
        created_at := 0, claimed_at := 0, confirmed_at := 0, bump := 7 } :
          RedemptionRequest).status = 0 ∧
      ({ user := 10, request_id := 1, amount := 40, status := 1,
         fulfiller := 9, created_at := 0, claimed_at := 2, confirmed_at := 0,
         bump := 7 } : RedemptionRequest).status = 1) :=
  redemption_status_forward_only.2.1
    { user := 10, request_id := 1, amount := 40, status := 0, fulfiller := 0,
      created_at := 0, claimed_at := 0, confirmed_at := 0, bump := 7 } 9 2
    { user := 10, request_id := 1, amount := 40, status := 1, fulfiller := 9,
      created_at := 0, claimed_at := 2, confirmed_at := 0, bump := 7 }
    (by rfl)

/-- Handler `buy_w3b` (public): requires not paused, a set price, and the
1000-unit per-transaction cap; computes the overflow-checked lamport cost;
transfers SOL and tokens (external, atomic with the rest); then, when a
profile account is present, accrues `points += amount`,
`total_volume += amount` (both saturating) and raises the tier by the fixed
thresholds (points > 2000 Platinum, > 500 Gold, > 100 Silver).  No protocol
state field is mutated.  Returns the updated optional profile. -/
def buy_w3b (s : ProtocolState) (user_profile : Option UserProfile)
    (amount : Nat) : Except W3BError (Option UserProfile) :=
  if s.is_paused then .error .ProtocolPaused
  else if s.w3b_price_lamports = 0 then .error .PriceNotSet
  else if amount > 1000 then .error .ExceedsTransactionCap
  else
    match checked_mul s.w3b_price_lamports amount with
    | none => .error .MathOverflow
    | some _cost =>
      match user_profile with
      | none => .ok none
      | some profile =>
        let profile := { profile with
          points := saturating_add profile.points amount,
          total_volume := saturating_add profile.total_volume amount }
        let profile :=
          if profile.points > 2000 then { profile with tier := 3 }
          else if profile.points > 500 then { profile with tier := 2 }
          else if profile.points > 100 then { profile with tier := 1 }
          else profile
        .ok (some profile)

/-- Handler `burn_w3b` (public): requires not paused; burns via the external
token module (atomic with the rest); decrements `total_supply` and
increments `total_burned` (both overflow/underflow-checked); creates the
pending redemption request; and, when a profile is present, awards
`amount.checked_mul(2).unwrap_or(amount)` points (saturating add) and
accrues `total_redeemed` (saturating).  Tier is not touched. -/
def burn_w3b (s : ProtocolState) (user : Nat)
    (user_profile : Option UserProfile) (amount : Nat) (request_id : Nat)
    (now : Int) (req_bump : Nat) :
    Except W3BError (ProtocolState × RedemptionRequest × Option UserProfile) :=
  if s.is_paused then .error .ProtocolPaused
  else
    match checked_sub s.total_supply amount with
    | none => .error .MathOverflow
    | some new_supply =>
      match checked_add s.total_burned amount with
      | none => .error .MathOverflow
      | some new_burned =>
        let s2 := { s with total_supply := new_supply,
                           total_burned := new_burned }
        let req : RedemptionRequest :=
          { user := user, request_id := request_id, amount := amount,
            status := 0, fulfiller := 0, created_at := now, claimed_at := 0,
            confirmed_at := 0, bump := req_bump }
        let profile2 := user_profile.map (fun p =>
          let points := (checked_mul amount 2).getD amount
          { p with points := saturating_add p.points points,
                   total_redeemed := saturating_add p.total_redeemed amount })
        .ok (s2, req, profile2)

/-- Handler `award_points` (operator op): adds a caller-chosen amount to the
profile points, saturating.  Nothing else is touched. -/
def award_points (profile : UserProfile) (amount : Nat) : UserProfile :=
  { profile with points := saturating_add profile.points amount }

/-- The signer constraint of the `AwardPoints` context: the caller must be
the operator or the authority. -/
def award_points_authorized (s : ProtocolState) (caller : Nat) : Bool :=
  caller == s.operator || caller == s.authority

/-- A fresh profile as created by `init_user_profile` for user 10. -/
def buyerProfile0 : UserProfile where
  user := 10
  total_volume := 0
  points := 0
  tier := 0
  total_redeemed := 0
  total_fulfilled := 0
  fulfiller_rewards := 0
  bump := 254

/-- The demo state with enough circulating supply to burn against. -/
def shopState : ProtocolState := { mintDemo with total_supply := 1000 }

/-- The profile after buying 150 units from `buyerProfile0`. -/
def profileAfterBuy : UserProfile :=
  { buyerProfile0 with points := 150, total_volume := 150, tier := 1 }

/-- The profile after then burning 400 units: 800 more points, tier kept. -/
def profileAfterBurn : UserProfile :=
  { profileAfterBuy with points := 950, total_redeemed := 400 }

/-- The protocol state after the 400-unit burn from `shopState`. -/
def stateAfterBurn : ProtocolState :=
  { shopState with total_supply := 600, total_burned := 400 }

/-- The redemption request created by the 400-unit burn. -/
def reqAfterBurn : RedemptionRequest where
  user := 10
  request_id := 1
  amount := 400
  status := 0
  fulfiller := 0
  created_at := 0
  claimed_at := 0
  confirmed_at := 0
  bump := 0

/-- Counterexample to C5: in the spec scenario (points 0, buy 150, then
burn-to-redeem 400) the code leaves the tier at Silver (1), not Gold (2):
`burn_w3b` never recomputes the tier. -/
theorem buy_then_burn_tier_stays_silver_cex :
    buy_w3b shopState (some buyerProfile0) 150 = .ok (some profileAfterBuy)
    ∧ profileAfterBuy.points = 150 ∧ profileAfterBuy.tier = 1
    ∧ burn_w3b shopState 10 (some profileAfterBuy) 400 1 0 0 =
        .ok (stateAfterBurn, reqAfterBurn, some profileAfterBurn)
    ∧ profileAfterBurn.points = 950
    ∧ profileAfterBurn.tier ≠ 2 := by
  exact ⟨by rfl, by rfl, by rfl, by rfl, by rfl, by decide⟩

/-- C5 (amended): buy 150 from a fresh profile yields points 150 and tier
Silver; the subsequent burn of 400 adds 800 points for 950 total but leaves
the tier at Silver, because only `buy_w3b` recomputes the tier —
`burn_w3b` always leaves the tier field unchanged. -/
theorem buy_then_burn_tier_amended :
    (buy_w3b shopState (some buyerProfile0) 150 = .ok (some profileAfterBuy)
     ∧ profileAfterBuy.points = 150 ∧ profileAfterBuy.tier = 1
     ∧ burn_w3b shopState 10 (some profileAfterBuy) 400 1 0 0 =
         .ok (stateAfterBurn, reqAfterBurn, some profileAfterBurn)
     ∧ profileAfterBurn.points = 950 ∧ profileAfterBurn.tier = 1)
    ∧ (∀ (s : ProtocolState) (u : Nat) (p : UserProfile)
         (amount rid : Nat) (now : Int) (b : Nat)
         (res : ProtocolState × RedemptionRequest × Option UserProfile),
        burn_w3b s u (some p) amount rid now b = .ok res →
          ∃ q, res.2.2 = some q ∧ q.tier = p.tier) := by
  refine ⟨⟨by rfl, by rfl, by rfl, by rfl, by rfl, by rfl⟩, ?_⟩
  intro s u p amount rid now b res h
  unfold burn_w3b at h
  split at h
  · cases h
  · split at h
    · cases h
    · split at h
      · cases h
      · rw [Except.ok.injEq] at h
        subst h
        exact ⟨_, rfl, rfl⟩

/-- Witness for the amended C5 theorem: the concrete 400-unit burn keeps the
tier of the concrete profile. -/
theorem buy_then_burn_tier_amended_witness :
    ∃ q, ((stateAfterBurn, reqAfterBurn, some profileAfterBurn) :
        ProtocolState × RedemptionRequest × Option UserProfile).2.2 = some q
      ∧ q.tier = profileAfterBuy.tier :=
  buy_then_burn_tier_amended.2 shopState 10 profileAfterBuy 400 1 0 0
    (stateAfterBurn, reqAfterBurn, some profileAfterBurn) (by rfl)

/-- A state holding 2^63 circulating supply, for the overflow case. -/
def bigState : ProtocolState :=
  { mintDemo with total_supply := 2 ^ 63, proven_reserves := 2 ^ 63 }

/-- The state after burning all 2^63 units of `bigState`. -/
def bigStateAfter : ProtocolState :=
  { bigState with total_supply := 0, total_burned := 2 ^ 63 }

/-- The redemption request created by the 2^63-unit burn. -/
def bigReq : RedemptionRequest where
  user := 10
  request_id := 1
  amount := 2 ^ 63
  status := 0
  fulfiller := 0
  created_at := 0
  claimed_at := 0
  confirmed_at := 0
  bump := 0

/-- The profile after the 2^63-unit burn from `buyerProfile0`. -/
def bigProfile : UserProfile :=
  { buyerProfile0 with points := 2 ^ 63, total_redeemed := 2 ^ 63 }

/-- Counterexample to C6: burning 2^63 units (whose doubling overflows a
`u64`) awards `unwrap_or(amount)` = 2^63 points, not the saturated
`min(amount * 2, u64::MAX)` the claim states. -/
theorem burn_overflow_award_not_saturating_cex :
    burn_w3b bigState 10 (some buyerProfile0) (2 ^ 63) 1 0 0 =
      .ok (bigStateAfter, bigReq, some bigProfile)
    ∧ bigProfile.points = 2 ^ 63
    ∧ (2 ^ 63 : Nat) ≠ min (2 ^ 63 * 2) U64_MAX := by
  exact ⟨by rfl, by rfl, by decide⟩

/-- C6 (amended): a successful burn with a present profile awards
`amount * 2` points when the doubling fits in a `u64` and falls back to
`amount` (not `u64::MAX`) when it overflows; the addition to the points and
to `total_redeemed` saturates at `u64::MAX`; and the ledger burn counter
increases by exactly `amount`. -/
theorem burn_award_fallback_amended (s : ProtocolState) (u : Nat)
    (p : UserProfile) (amount rid : Nat) (now : Int) (b : Nat)
    (st : ProtocolState) (req : RedemptionRequest) (po : Option UserProfile)
    (h : burn_w3b s u (some p) amount rid now b = .ok (st, req, po)) :
    po = some { p with
        points := min
          (p.points + (if amount * 2 ≤ U64_MAX then amount * 2 else amount))
          U64_MAX,
        total_redeemed := min (p.total_redeemed + amount) U64_MAX }
    ∧ st.total_burned = s.total_burned + amount
    ∧ st.total_supply = s.total_supply - amount := by
  unfold burn_w3b at h
  split at h
  · cases h
  · split at h
    · cases h
    · next ns hsub =>
      split at h
      · cases h
      · next nb hadd =>
        rw [Except.ok.injEq, Prod.mk.injEq, Prod.mk.injEq] at h
        obtain ⟨hst, hreq, hpo⟩ := h
        unfold checked_sub at hsub
        split at hsub
        · rw [Option.some.injEq] at hsub
          subst hsub
          unfold checked_add at hadd
          split at hadd
          · rw [Option.some.injEq] at hadd
            subst hadd
            subst hst
            refine ⟨?_, rfl, rfl⟩
            rw [← hpo]
            simp only [Option.map, checked_mul, saturating_add]
            split_ifs <;> rfl
          · cases hadd
        · cases hsub

/-- The profile value the amended C6 theorem predicts for the big burn. -/
def bigProfilePredicted : UserProfile :=
  { buyerProfile0 with
      points := min
        (buyerProfile0.points +
          (if 2 ^ 63 * 2 ≤ U64_MAX then 2 ^ 63 * 2 else 2 ^ 63)) U64_MAX,
      total_redeemed := min (buyerProfile0.total_redeemed + 2 ^ 63) U64_MAX }

/-- Witness for the amended C6 theorem at the concrete overflow burn. -/
theorem burn_award_fallback_amended_witness :
    (some bigProfile : Option UserProfile) = some bigProfilePredicted :=
  (burn_award_fallback_amended bigState 10 buyerProfile0 (2 ^ 63) 1 0 0
    bigStateAfter bigReq (some bigProfile) (by rfl)).1

/-- C10: `award_points` is an operator-callable operation that adds an
arbitrary caller-chosen amount to the points of any profile (saturating at
`u64::MAX`), with no purchase, redemption or fulfillment involved; it does
not recompute the tier and leaves `total_volume`, `total_redeemed` and
`total_fulfilled` untouched; the `AwardPoints` signer constraint accepts
the operator. -/
theorem award_points_only_touches_points (p : UserProfile) (amount : Nat) :
    (award_points p amount).points = min (p.points + amount) U64_MAX
    ∧ (award_points p amount).tier = p.tier
    ∧ (award_points p amount).total_volume = p.total_volume
    ∧ (award_points p amount).total_redeemed = p.total_redeemed
    ∧ (award_points p amount).total_fulfilled = p.total_fulfilled
    ∧ (∀ s : ProtocolState, award_points_authorized s s.operator = true) := by
  refine ⟨rfl, rfl, rfl, rfl, rfl, fun s => ?_⟩
  simp [award_points_authorized]

/-- An account data buffer, byte-addressed.  `migrate_v2` resizes the
account to 512 bytes, so `fix_v2_layout` always sees a total buffer; we
model it as a function from byte offset to byte value. -/
def ByteBuf : Type := Nat → Nat

/-- Read `n` consecutive bytes starting at offset `lo` (the source's
`data[lo..lo+n]` slice reads, e.g. `Pubkey::try_from(&data[8..40])` and
`copy_from_slice`). -/
def readBytes (d : ByteBuf) (lo n : Nat) : List Nat :=
  (List.range n).map (fun k => d (lo + k))

/-- Write the byte list `bs` at offset `lo` (the source's
`data[lo..lo+len].copy_from_slice(&bs)`). -/
def writeBytes (d : ByteBuf) (lo : Nat) (bs : List Nat) : ByteBuf :=
  fun i => if lo ≤ i ∧ i < lo + bs.length then bs.getD (i - lo) 0 else d i

/-- Zero every byte from offset 8 on, preserving the 8-byte discriminator
(the source's `for byte in data[8..].iter_mut() { *byte = 0; }`). -/
def zeroTail (d : ByteBuf) : ByteBuf :=
  fun i => if i < 8 then d i else 0

/-- Handler `fix_v2_layout` (admin, intended one-time): reads every V1 field
at its V1 offset into a temporary, zero-fills the buffer past the
discriminator, then writes each field at its V2 offset.  The V1 offsets are
authority 8..40, w3b_mint 40..72, treasury 72..104, merkle root 104..136,
last_root_update 136..144, last_proof_timestamp 144..152, proven_reserves
152..160, total_supply 160..168, is_paused 168, bump 169, price 170..178,
sol_receiver 178..210.  The authority guard (raw bytes 8..40 against the
signer) is modelled separately by `fix_v2_layout_guard`. -/
def fix_v2_layout (d : ByteBuf) : ByteBuf :=
  let authority_key := readBytes d 8 32
  let w3b_mint := readBytes d 40 32
  let treasury := readBytes d 72 32
  let merkle_root := readBytes d 104 32
  let last_root_update := readBytes d 136 8
  let last_proof_timestamp := readBytes d 144 8
  let proven_reserves := readBytes d 152 8
  let total_supply := readBytes d 160 8
  let is_paused := d 168
  let bump := d 169
  let w3b_price_lamports := readBytes d 170 8
  let sol_receiver := readBytes d 178 32
  let d0 := zeroTail d
  let d1 := writeBytes d0 8 authority_key
  let d2 := writeBytes d1 40 authority_key
  let d3 := writeBytes d2 72 w3b_mint
  let d4 := writeBytes d3 104 treasury
  let d5 := writeBytes d4 136 total_supply
  let d6 := writeBytes d5 152 merkle_root
  let d7 := writeBytes d6 184 proven_reserves
  let d8 := writeBytes d7 192 last_root_update
  let d9 := writeBytes d8 200 last_proof_timestamp
  let d10 := writeBytes d9 208 w3b_price_lamports
  let d11 := writeBytes d10 216 sol_receiver
  let d12 := writeBytes d11 266 [is_paused]
  writeBytes d12 267 [bump]

/-- The validation guard of `fix_v2_layout`: the buffer must be at least 218
bytes and the authority bytes at 8..40 must match the signer. -/
def fix_v2_layout_guard (d : ByteBuf) (len : Nat) (signer : List Nat) : Bool :=
  decide (218 ≤ len) && (readBytes d 8 32 == signer)

theorem readBytes_length (d : ByteBuf) (lo n : Nat) :
    (readBytes d lo n).length = n := by
  simp [readBytes]

theorem readBytes_getD (d : ByteBuf) (lo n k : Nat) (h : k < n) :
    (readBytes d lo n).getD k 0 = d (lo + k) := by
  unfold readBytes
  rw [List.getD_eq_getElem?_getD, List.getElem?_map, List.getElem?_range h]
  rfl

theorem writeBytes_skip (d : ByteBuf) (lo : Nat) (bs : List Nat) (i : Nat)
    (h : i < lo ∨ lo + bs.length ≤ i) : writeBytes d lo bs i = d i := by
  unfold writeBytes
  rw [if_neg]
  omega

theorem writeBytes_mem (d : ByteBuf) (lo : Nat) (bs : List Nat) (i : Nat)
    (h1 : lo ≤ i) (h2 : i < lo + bs.length) :
    writeBytes d lo bs i = bs.getD (i - lo) 0 := by
  unfold writeBytes
  rw [if_pos ⟨h1, h2⟩]


theorem zeroTail_ge (d : ByteBuf) (i : Nat) (h : 8 ≤ i) : zeroTail d i = 0 := by
  unfold zeroTail
  rw [if_neg]
  omega

theorem fix_v2_byte_authority (d : ByteBuf) (i : Nat) (h1 : 8 ≤ i)
    (h2 : i < 40) : fix_v2_layout d i = d i := by
  simp only [fix_v2_layout]
  rw [writeBytes_skip, writeBytes_skip, writeBytes_skip, writeBytes_skip, writeBytes_skip, writeBytes_skip, writeBytes_skip, writeBytes_skip, writeBytes_skip, writeBytes_skip, writeBytes_skip, writeBytes_skip, writeBytes_mem, readBytes_getD]
  · exact congrArg d (by omega)
  all_goals
    try simp only [readBytes_length, List.length_cons, List.length_nil]
  all_goals omega

theorem fix_v2_byte_operator (d : ByteBuf) (i : Nat) (h1 : 40 ≤ i)
    (h2 : i < 72) : fix_v2_layout d i = d (i - 32) := by
  simp only [fix_v2_layout]
  rw [writeBytes_skip, writeBytes_skip, writeBytes_skip, writeBytes_skip, writeBytes_skip, writeBytes_skip, writeBytes_skip, writeBytes_skip, writeBytes_skip, writeBytes_skip, writeBytes_skip, writeBytes_mem, readBytes_getD]
  · exact congrArg d (by omega)
  all_goals
    try simp only [readBytes_length, List.length_cons, List.length_nil]
  all_goals omega

theorem fix_v2_byte_w3b_mint (d : ByteBuf) (i : Nat) (h1 : 72 ≤ i)
    (h2 : i < 104) : fix_v2_layout d i = d (i - 32) := by
  simp only [fix_v2_layout]
  rw [writeBytes_skip, writeBytes_skip, writeBytes_skip, writeBytes_skip, writeBytes_skip, writeBytes_skip, writeBytes_skip, writeBytes_skip, writeBytes_skip, writeBytes_skip, writeBytes_mem, readBytes_getD]
  · exact congrArg d (by omega)
  all_goals
    try simp only [readBytes_length, List.length_cons, List.length_nil]
  all_goals omega

theorem fix_v2_byte_treasury (d : ByteBuf) (i : Nat) (h1 : 104 ≤ i)
    (h2 : i < 136) : fix_v2_layout d i = d (i - 32) := by
  simp only [fix_v2_layout]
  rw [writeBytes_skip, writeBytes_skip, writeBytes_skip, writeBytes_skip, writeBytes_skip, writeBytes_skip, writeBytes_skip, writeBytes_skip, writeBytes_skip, writeBytes_mem, readBytes_getD]
  · exact congrArg d (by omega)
  all_goals
    try simp only [readBytes_length, List.length_cons, List.length_nil]
  all_goals omega

theorem fix_v2_byte_total_supply (d : ByteBuf) (i : Nat) (h1 : 136 ≤ i)
    (h2 : i < 144) : fix_v2_layout d i = d (i + 24) := by
  simp only [fix_v2_layout]
  rw [writeBytes_skip, writeBytes_skip, writeBytes_skip, writeBytes_skip, writeBytes_skip, writeBytes_skip, writeBytes_skip, writeBytes_skip, writeBytes_mem, readBytes_getD]
  · exact congrArg d (by omega)
  all_goals
    try simp only [readBytes_length, List.length_cons, List.length_nil]
  all_goals omega

theorem fix_v2_byte_merkle_root (d : ByteBuf) (i : Nat) (h1 : 152 ≤ i)
    (h2 : i < 184) : fix_v2_layout d i = d (i - 48) := by
  simp only [fix_v2_layout]
  rw [writeBytes_skip, writeBytes_skip, writeBytes_skip, writeBytes_skip, writeBytes_skip, writeBytes_skip, writeBytes_skip, writeBytes_mem, readBytes_getD]
  · exact congrArg d (by omega)
  all_goals
    try simp only [readBytes_length, List.length_cons, List.length_nil]
  all_goals omega

theorem fix_v2_byte_proven_reserves (d : ByteBuf) (i : Nat) (h1 : 184 ≤ i)
    (h2 : i < 192) : fix_v2_layout d i = d (i - 32) := by
  simp only [fix_v2_layout]
  rw [writeBytes_skip, writeBytes_skip, writeBytes_skip, writeBytes_skip, writeBytes_skip, writeBytes_skip, writeBytes_mem, readBytes_getD]
  · exact congrArg d (by omega)
  all_goals
    try simp only [readBytes_length, List.length_cons, List.length_nil]
  all_goals omega

theorem fix_v2_byte_last_root_update (d : ByteBuf) (i : Nat) (h1 : 192 ≤ i)
    (h2 : i < 200) : fix_v2_layout d i = d (i - 56) := by
  simp only [fix_v2_layout]
  rw [writeBytes_skip, writeBytes_skip, writeBytes_skip, writeBytes_skip, writeBytes_skip, writeBytes_mem, readBytes_getD]
  · exact congrArg d (by omega)
  all_goals
    try simp only [readBytes_length, List.length_cons, List.length_nil]
  all_goals omega

theorem fix_v2_byte_last_proof_timestamp (d : ByteBuf) (i : Nat) (h1 : 200 ≤ i)
    (h2 : i < 208) : fix_v2_layout d i = d (i - 56) := by
  simp only [fix_v2_layout]
  rw [writeBytes_skip, writeBytes_skip, writeBytes_skip, writeBytes_skip, writeBytes_mem, readBytes_getD]
  · exact congrArg d (by omega)
  all_goals
    try simp only [readBytes_length, List.length_cons, List.length_nil]
  all_goals omega

theorem fix_v2_byte_price (d : ByteBuf) (i : Nat) (h1 : 208 ≤ i)
    (h2 : i < 216) : fix_v2_layout d i = d (i - 38) := by
  simp only [fix_v2_layout]
  rw [writeBytes_skip, writeBytes_skip, writeBytes_skip, writeBytes_mem, readBytes_getD]
  · exact congrArg d (by omega)
  all_goals
    try simp only [readBytes_length, List.length_cons, List.length_nil]
  all_goals omega

theorem fix_v2_byte_sol_receiver (d : ByteBuf) (i : Nat) (h1 : 216 ≤ i)
    (h2 : i < 248) : fix_v2_layout d i = d (i - 38) := by
  simp only [fix_v2_layout]
  rw [writeBytes_skip, writeBytes_skip, writeBytes_mem, readBytes_getD]
  · exact congrArg d (by omega)
  all_goals
    try simp only [readBytes_length, List.length_cons, List.length_nil]
  all_goals omega

theorem fix_v2_byte_is_paused (d : ByteBuf) :
    fix_v2_layout d 266 = d 168 := by
  simp only [fix_v2_layout]
  rw [writeBytes_skip, writeBytes_mem]
  · rfl
  all_goals
    try simp only [readBytes_length, List.length_cons, List.length_nil]
  all_goals omega

theorem fix_v2_byte_bump (d : ByteBuf) :
    fix_v2_layout d 267 = d 169 := by
  simp only [fix_v2_layout]
  rw [writeBytes_mem]
  · rfl
  all_goals
    try simp only [readBytes_length, List.length_cons, List.length_nil]
  all_goals omega

theorem fix_v2_byte_zero_total_burned (d : ByteBuf) (i : Nat) (h1 : 144 ≤ i) (h2 : i < 152) :
    fix_v2_layout d i = 0 := by
  simp only [fix_v2_layout]
  rw [writeBytes_skip, writeBytes_skip, writeBytes_skip, writeBytes_skip, writeBytes_skip, writeBytes_skip, writeBytes_skip, writeBytes_skip, writeBytes_skip, writeBytes_skip, writeBytes_skip, writeBytes_skip, writeBytes_skip, zeroTail_ge]
  all_goals
    try simp only [readBytes_length, List.length_cons, List.length_nil]
  all_goals omega

theorem fix_v2_byte_zero_yield (d : ByteBuf) (i : Nat) (h1 : 248 ≤ i) (h2 : i < 266) :
    fix_v2_layout d i = 0 := by
  simp only [fix_v2_layout]
  rw [writeBytes_skip, writeBytes_skip, writeBytes_skip, writeBytes_skip, writeBytes_skip, writeBytes_skip, writeBytes_skip, writeBytes_skip, writeBytes_skip, writeBytes_skip, writeBytes_skip, writeBytes_skip, writeBytes_skip, zeroTail_ge]
  all_goals
    try simp only [readBytes_length, List.length_cons, List.length_nil]
  all_goals omega

theorem fix_v2_byte_zero_reserved (d : ByteBuf) (i : Nat) (h1 : 268 ≤ i) :
    fix_v2_layout d i = 0 := by
  simp only [fix_v2_layout]
  rw [writeBytes_skip, writeBytes_skip, writeBytes_skip, writeBytes_skip, writeBytes_skip, writeBytes_skip, writeBytes_skip, writeBytes_skip, writeBytes_skip, writeBytes_skip, writeBytes_skip, writeBytes_skip, writeBytes_skip, zeroTail_ge]
  all_goals
    try simp only [readBytes_length, List.length_cons, List.length_nil]
  all_goals omega

theorem readBytes_congr (f g : ByteBuf) (a b n : Nat)
    (h : ∀ k, k < n → f (a + k) = g (b + k)) :
    readBytes f a n = readBytes g b n := by
  unfold readBytes
  refine List.map_congr_left ?_
  intro x hx
  exact h x (List.mem_range.mp hx)

theorem readBytes_const_zero (f : ByteBuf) (a n : Nat)
    (h : ∀ k, k < n → f (a + k) = 0) :
    readBytes f a n = List.replicate n 0 := by
  unfold readBytes
  apply List.ext_getElem
  · simp
  · intro k h1 h2
    simp only [List.getElem_map, List.getElem_range, List.getElem_replicate]
    exact h k (by simpa using h1)

/-- C3: remapping a V1-layout buffer with `fix_v2_layout` makes every field
present in both layouts read back, at its V2 offset, with exactly its V1
bytes (authority 8..40, w3b_mint at 72..104 from 40..72, treasury at
104..136 from 72..104, merkle root at 152..184 from 104..136, total_supply
at 136..144 from 160..168, proven_reserves at 184..192 from 152..160,
last_root_update at 192..200 from 136..144, last_proof_timestamp at
200..208 from 144..152, price at 208..216 from 170..178, sol_receiver at
216..248 from 178..210, is_paused at 266 from 168, bump at 267 from 169),
while every V2-only field reads back as its default: zero bytes for
total_burned (144..152), yield_apy_bps (248..250), total_yield_distributed
(250..258), last_yield_distribution (258..266) and the reserved tail
(268..332), and the authority bytes for operator (40..72), whose documented
default is the authority. -/
theorem fix_v2_layout_roundtrip (d : ByteBuf) :
    readBytes (fix_v2_layout d) 8 32 = readBytes d 8 32
    ∧ readBytes (fix_v2_layout d) 40 32 = readBytes d 8 32
    ∧ readBytes (fix_v2_layout d) 72 32 = readBytes d 40 32
    ∧ readBytes (fix_v2_layout d) 104 32 = readBytes d 72 32
    ∧ readBytes (fix_v2_layout d) 136 8 = readBytes d 160 8
    ∧ readBytes (fix_v2_layout d) 152 32 = readBytes d 104 32
    ∧ readBytes (fix_v2_layout d) 184 8 = readBytes d 152 8
    ∧ readBytes (fix_v2_layout d) 192 8 = readBytes d 136 8
    ∧ readBytes (fix_v2_layout d) 200 8 = readBytes d 144 8
    ∧ readBytes (fix_v2_layout d) 208 8 = readBytes d 170 8
    ∧ readBytes (fix_v2_layout d) 216 32 = readBytes d 178 32
    ∧ fix_v2_layout d 266 = d 168
    ∧ fix_v2_layout d 267 = d 169
    ∧ readBytes (fix_v2_layout d) 144 8 = List.replicate 8 0
    ∧ readBytes (fix_v2_layout d) 248 2 = List.replicate 2 0
    ∧ readBytes (fix_v2_layout d) 250 8 = List.replicate 8 0
    ∧ readBytes (fix_v2_layout d) 258 8 = List.replicate 8 0
    ∧ readBytes (fix_v2_layout d) 268 64 = List.replicate 64 0 := by
  refine ⟨?_, ?_, ?_, ?_, ?_, ?_, ?_, ?_, ?_, ?_, ?_,
          fix_v2_byte_is_paused d, fix_v2_byte_bump d, ?_, ?_, ?_, ?_, ?_⟩
  · exact readBytes_congr _ _ 8 8 32 (fun k hk => by
      rw [fix_v2_byte_authority d (8 + k) (by omega) (by omega)])
  · exact readBytes_congr _ _ 40 8 32 (fun k hk => by
      rw [fix_v2_byte_operator d (40 + k) (by omega) (by omega)]
      exact congrArg d (by omega))
  · exact readBytes_congr _ _ 72 40 32 (fun k hk => by
      rw [fix_v2_byte_w3b_mint d (72 + k) (by omega) (by omega)]
      exact congrArg d (by omega))
  · exact readBytes_congr _ _ 104 72 32 (fun k hk => by
      rw [fix_v2_byte_treasury d (104 + k) (by omega) (by omega)]
      exact congrArg d (by omega))
  · exact readBytes_congr _ _ 136 160 8 (fun k hk => by
      rw [fix_v2_byte_total_supply d (136 + k) (by omega) (by omega)]
      exact congrArg d (by omega))
  · exact readBytes_congr _ _ 152 104 32 (fun k hk => by
      rw [fix_v2_byte_merkle_root d (152 + k) (by omega) (by omega)]
      exact congrArg d (by omega))
  · exact readBytes_congr _ _ 184 152 8 (fun k hk => by
      rw [fix_v2_byte_proven_reserves d (184 + k) (by omega) (by omega)]
      exact congrArg d (by omega))
  · exact readBytes_congr _ _ 192 136 8 (fun k hk => by
      rw [fix_v2_byte_last_root_update d (192 + k) (by omega) (by omega)]
      exact congrArg d (by omega))
  · exact readBytes_congr _ _ 200 144 8 (fun k hk => by
      rw [fix_v2_byte_last_proof_timestamp d (200 + k) (by omega) (by omega)]
      exact congrArg d (by omega))
  · exact readBytes_congr _ _ 208 170 8 (fun k hk => by
      rw [fix_v2_byte_price d (208 + k) (by omega) (by omega)]
      exact congrArg d (by omega))
  · exact readBytes_congr _ _ 216 178 32 (fun k hk => by
      rw [fix_v2_byte_sol_receiver d (216 + k) (by omega) (by omega)]
      exact congrArg d (by omega))
  · exact readBytes_const_zero _ 144 8 (fun k hk =>
      fix_v2_byte_zero_total_burned d (144 + k) (by omega) (by omega))
  · exact readBytes_const_zero _ 248 2 (fun k hk =>
      fix_v2_byte_zero_yield d (248 + k) (by omega) (by omega))
  · exact readBytes_const_zero _ 250 8 (fun k hk =>
      fix_v2_byte_zero_yield d (250 + k) (by omega) (by omega))
  · exact readBytes_const_zero _ 258 8 (fun k hk =>
      fix_v2_byte_zero_yield d (258 + k) (by omega) (by omega))
  · exact readBytes_const_zero _ 268 64 (fun k hk =>
      fix_v2_byte_zero_reserved d (268 + k) (by omega))

/-- A concrete V1-layout buffer with pairwise-distinct field bytes. -/
def exBuf : ByteBuf := fun i => i % 256

/-- Counterexample to C4: running `fix_v2_layout` a second time on an
already-remapped buffer does not leave the semantic field values intact:
the w3b_mint field (V2 offsets 72..104) changes, because the second run
re-reads V2 data at V1 offsets and shifts everything again.  The authority
guard does not prevent this: authority sits at 8..40 in both layouts, so
the check passes on the remapped buffer. -/
theorem fix_v2_layout_not_idempotent_cex :
    readBytes (fix_v2_layout (fix_v2_layout exBuf)) 72 32 ≠
      readBytes (fix_v2_layout exBuf) 72 32 := by
  intro h
  have h0 : fix_v2_layout (fix_v2_layout exBuf) 72 = fix_v2_layout exBuf 72 := by
    have := congrArg (fun l => l.getD 0 0) h
    simpa [readBytes_getD] using this
  rw [fix_v2_byte_w3b_mint (fix_v2_layout exBuf) 72 (by omega) (by omega),
      fix_v2_byte_operator exBuf 40 (by omega) (by omega),
      fix_v2_byte_w3b_mint exBuf 72 (by omega) (by omega)] at h0
  exact absurd h0 (by decide)

/-- C4 (amended): the validation field (authority, bytes 8..40) is at the
same offset in both layouts, so a second `fix_v2_layout` invocation passes
the guard exactly when the first did; but the remap itself is not
idempotent: on an already-remapped buffer it shifts the fields again, so a
second run changes semantic field values (the source marks the instruction
"one-time" and only the guard field survives a re-run unchanged). -/
theorem fix_v2_layout_guard_stable_but_not_idempotent :
    (∀ (d : ByteBuf) (len : Nat) (signer : List Nat),
        fix_v2_layout_guard (fix_v2_layout d) len signer =
          fix_v2_layout_guard d len signer)
    ∧ readBytes (fix_v2_layout (fix_v2_layout exBuf)) 72 32 ≠
        readBytes (fix_v2_layout exBuf) 72 32 := by
  constructor
  · intro d len signer
    unfold fix_v2_layout_guard
    rw [readBytes_congr (fix_v2_layout d) d 8 8 32 (fun k hk => by
      rw [fix_v2_byte_authority d (8 + k) (by omega) (by omega)])]
  · intro h
    have h0 : fix_v2_layout (fix_v2_layout exBuf) 72 =
        fix_v2_layout exBuf 72 := by
      have := congrArg (fun l => l.getD 0 0) h
      simpa [readBytes_getD] using this
    rw [fix_v2_byte_w3b_mint (fix_v2_layout exBuf) 72 (by omega) (by omega),
        fix_v2_byte_operator exBuf 40 (by omega) (by omega),
        fix_v2_byte_w3b_mint exBuf 72 (by omega) (by omega)] at h0
    exact absurd h0 (by decide)

/-- Witness for the amended C4 theorem: the guard outcome on the concrete
remapped buffer equals the guard outcome on the original buffer. -/
theorem fix_v2_layout_guard_stable_witness :
    fix_v2_layout_guard (fix_v2_layout exBuf) 512 (readBytes exBuf 8 32) =
      fix_v2_layout_guard exBuf 512 (readBytes exBuf 8 32) :=
  fix_v2_layout_guard_stable_but_not_idempotent.1 exBuf 512
    (readBytes exBuf 8 32)
